import Mathlib

/-!
Verification of the AI-tutor application (`app.py`): a shallow embedding of
the conversation manager, transcript store, Ollama health probe, process
supervisor (start/stop/restart/ensure-running) and the streaming bridge,
together with theorems settling the specified properties.

Python strings are modelled as `List Char` where character slicing matters
(transcript contents, pgrep output) and as `String` where they are opaque
(status labels, messages).  Machine effects (HTTP requests, process signals,
the wall clock) are passed in explicitly as environment parameters, one value
per observation the Python code makes.
-/

namespace AiTutor

/-- `MAX_CONVERSATION_EXCHANGES = 10` from app.py. -/
def MAX_CONVERSATION_EXCHANGES : Nat := 10

/-- Python slice `l[-k:]` for a non-negative `k`.  Python's `-0` is `0`, so
`l[-0:]` is the whole list; for `k > 0` it is the last `min k (length l)`
elements. -/
def pyTail (l : List α) (k : Nat) : List α :=
  if k = 0 then l else l.drop (l.length - k)

/-- `trim_conversation` from app.py: keep the last `max_exchanges * 2`
messages, via the Python slice `messages[-(max_exchanges * 2):]`. -/
def trim_conversation (messages : List α) (max_exchanges : Nat) : List α :=
  if messages.length ≤ max_exchanges * 2 then messages
  else pyTail messages (max_exchanges * 2)

theorem trim_conversation_of_le {l : List α} {N : Nat}
    (h : l.length ≤ N * 2) : trim_conversation l N = l := by
  simp [trim_conversation, h]

theorem length_pyTail_of_lt {l : List α} {k : Nat} (hk : 0 < k)
    (hl : k < l.length) : (pyTail l k).length = k := by
  simp [pyTail, Nat.pos_iff_ne_zero.mp hk]
  omega

theorem pyTail_suffix (l : List α) (k : Nat) : pyTail l k <:+ l := by
  unfold pyTail
  split
  · exact List.suffix_rfl
  · exact List.drop_suffix _ _

/-- A transcript file as the store sees it: its name and the text that
`read_file_content` extracts for it, as Python character sequences. -/
structure FileEntry where
  name : List Char
  content : List Char

/-- Python string `<=` on names, lexicographic by code point, as used by
`sorted(files, key=lambda x: x["name"])`. -/
def strLe : List Char → List Char → Bool
  | [], _ => true
  | _ :: _, [] => false
  | a :: as, b :: bs => if a = b then strLe as bs else decide (a < b)

theorem strLe_total (a : List Char) : ∀ b, strLe a b || strLe b a := by
  induction a with
  | nil => intro b; simp [strLe]
  | cons x xs ih =>
    intro b
    cases b with
    | nil => simp [strLe]
    | cons y ys =>
      by_cases hxy : x = y
      · subst hxy
        simpa [strLe] using ih ys
      · simp only [strLe, if_neg hxy, if_neg (Ne.symm hxy)]
        rcases lt_or_gt_of_ne hxy with hlt | hgt
        · simp [hlt]
        · simp [hgt]

theorem strLe_trans (a : List Char) :
    ∀ b c, strLe a b = true → strLe b c = true → strLe a c = true := by
  induction a with
  | nil => intro b c _ _; rfl
  | cons x xs ih =>
    intro b c hab hbc
    cases b with
    | nil => simp [strLe] at hab
    | cons y ys =>
      cases c with
      | nil => simp [strLe] at hbc
      | cons z zs =>
        simp only [strLe] at hab hbc ⊢
        by_cases hxy : x = y
        · subst hxy
          by_cases hxz : x = z
          · subst hxz
            simp only [if_pos rfl] at hab hbc ⊢
            exact ih ys zs hab hbc
          · simpa [hxz] using hbc
        · by_cases hyz : y = z
          · subst hyz
            simpa [hxy] using hab
          · have hxy' : x < y := by simpa [hxy] using hab
            have hyz' : y < z := by simpa [hyz] using hbc
            have hxz : x < z := lt_trans hxy' hyz'
            simp [ne_of_lt hxz, hxz]

/-- `get_all_files` from app.py, restricted to what the transcript claims
need: the discovered files in sorted-name order (Python's `sorted` is stable,
as is `mergeSort`). -/
def get_all_files (files : List FileEntry) : List FileEntry :=
  files.mergeSort (fun a b => strLe a.name b.name)

/-- The character budget `limit = 32_000` in `get_all_transcript_content`. -/
def TRANSCRIPT_LIMIT : Nat := 32000

/-- The accumulation loop of `get_all_transcript_content`: for each file, if
its text is non-empty (Python truthiness) and the running total is below the
budget, include the chunk `text[: limit - total]` and add the chunk's length
to the total.  The running total is always the initial total plus the lengths
of the chunks included so far, so it is carried here as the `total` argument
and the function returns the included `(file, chunk)` pairs. -/
def transcriptParts (limit : Nat) : List FileEntry → Nat → List (FileEntry × List Char)
  | [], _ => []
  | f :: fs, total =>
    if f.content ≠ [] ∧ total < limit then
      (f, f.content.take (limit - total)) ::
        transcriptParts limit fs (total + (f.content.take (limit - total)).length)
    else transcriptParts limit fs total

/-- The `f"=== File: {name} ===\n{chunk}\n"` part built for each included
file. -/
def filePart (p : FileEntry × List Char) : List Char :=
  "=== File: ".data ++ p.1.name ++ " ===\n".data ++ p.2 ++ "\n".data

/-- `get_all_transcript_content` from app.py: the parts joined by
`"\n".join(parts)`. -/
def get_all_transcript_content (files : List FileEntry) : List Char :=
  List.intercalate "\n".data
    ((transcriptParts TRANSCRIPT_LIMIT (get_all_files files) 0).map filePart)

theorem transcriptParts_sum_le (limit : Nat) :
    ∀ (fs : List FileEntry) (t : Nat), t ≤ limit →
      t + ((transcriptParts limit fs t).map (fun p => p.2.length)).sum ≤ limit := by
  intro fs
  induction fs with
  | nil => intro t ht; simpa [transcriptParts] using ht
  | cons f fs ih =>
    intro t ht
    simp only [transcriptParts]
    split
    · rename_i hcond
      simp only [List.map_cons, List.sum_cons]
      have htake : (f.content.take (limit - t)).length ≤ limit - t :=
        List.length_take_le _ _
      have := ih (t + (f.content.take (limit - t)).length) (by omega)
      omega
    · exact ih t ht

theorem transcriptParts_at_limit (limit : Nat) :
    ∀ (fs : List FileEntry) (t : Nat), limit ≤ t →
      transcriptParts limit fs t = [] := by
  intro fs
  induction fs with
  | nil => intro t _; rfl
  | cons f fs ih =>
    intro t ht
    simp only [transcriptParts]
    rw [if_neg (by omega)]
    exact ih t ht

/-- Every included chunk except possibly the final one is the complete file
content: truncation can happen only to the last included file. -/
theorem transcriptParts_dropLast_full (limit : Nat) :
    ∀ (fs : List FileEntry) (t : Nat),
      ∀ p ∈ (transcriptParts limit fs t).dropLast, p.2 = p.1.content := by
  intro fs
  induction fs with
  | nil => intro t p hp; simp [transcriptParts] at hp
  | cons f fs ih =>
    intro t p hp
    simp only [transcriptParts] at hp
    by_cases hcond : f.content ≠ [] ∧ t < limit
    · rw [if_pos hcond] at hp
      by_cases hfit : f.content.length ≤ limit - t
      · rw [List.take_of_length_le hfit] at hp
        rcases hrest : transcriptParts limit fs (t + f.content.length) with _ | ⟨r, rs⟩
        · rw [hrest] at hp
          simp at hp
        · rw [hrest, List.dropLast_cons₂, List.mem_cons] at hp
          rcases hp with hp | hp
          · subst hp; rfl
          · rw [← hrest] at hp
            exact ih (t + f.content.length) p hp
      · have hlen : (f.content.take (limit - t)).length = limit - t := by
          rw [List.length_take]; omega
        rw [hlen, show t + (limit - t) = limit by omega,
          transcriptParts_at_limit limit fs limit (Nat.le_refl _)] at hp
        simp at hp
    · rw [if_neg hcond] at hp
      exact ih t p hp

theorem transcriptParts_fst_sublist (limit : Nat) :
    ∀ (fs : List FileEntry) (t : Nat),
      ((transcriptParts limit fs t).map Prod.fst).Sublist fs := by
  intro fs
  induction fs with
  | nil => intro t; simp [transcriptParts]
  | cons f fs ih =>
    intro t
    simp only [transcriptParts]
    split
    · exact List.Sublist.cons₂ f (ih _)
    · exact List.Sublist.cons f (ih t)

/-- C1 (amended): `get_all_transcript_content` caps the total number of
transcript characters it includes (the sum of the included chunks) at the
32000-character budget — the returned string itself can be longer, because
the `=== File: ... ===` markers and the joining newlines are not counted
against the budget.  Files are processed in sorted-name order, and only the
final included file can be truncated (every earlier chunk is the complete
file content). -/
theorem C1_transcript_content (files : List FileEntry) :
    ((transcriptParts TRANSCRIPT_LIMIT (get_all_files files) 0).map
        (fun p => p.2.length)).sum ≤ TRANSCRIPT_LIMIT ∧
    (∀ p ∈ (transcriptParts TRANSCRIPT_LIMIT (get_all_files files) 0).dropLast,
        p.2 = p.1.content) ∧
    List.Pairwise (fun p q => strLe p.1.name q.1.name = true)
      (transcriptParts TRANSCRIPT_LIMIT (get_all_files files) 0) := by
  refine ⟨?_, transcriptParts_dropLast_full _ _ _, ?_⟩
  · have h := transcriptParts_sum_le TRANSCRIPT_LIMIT (get_all_files files) 0
      (Nat.zero_le _)
    omega
  · have hsorted : List.Pairwise (fun a b => strLe a.name b.name = true)
        (get_all_files files) :=
      List.sorted_mergeSort
        (fun a b c hab hbc => strLe_trans a.name b.name c.name hab hbc)
        (fun a b => strLe_total a.name b.name) files
    have hsub := transcriptParts_fst_sublist TRANSCRIPT_LIMIT (get_all_files files) 0
    exact (List.pairwise_map).mp (hsorted.sublist hsub)

theorem length_filePart (p : FileEntry × List Char) :
    (filePart p).length = p.1.name.length + p.2.length + 16 := by
  unfold filePart
  have l1 : ("=== File: ".data).length = 10 := rfl
  have l3 : (" ===\n".data).length = 5 := rfl
  have l4 : ("\n".data).length = 1 := rfl
  simp only [List.length_append, l1, l3, l4]
  omega

/-- `get_all_transcript_content` on a single file with non-empty text. -/
theorem transcript_content_singleton (f : FileEntry) (hne : f.content ≠ []) :
    get_all_transcript_content [f] =
      filePart (f, f.content.take TRANSCRIPT_LIMIT) := by
  unfold get_all_transcript_content get_all_files
  rw [List.mergeSort_singleton]
  simp only [transcriptParts]
  rw [if_pos ⟨hne, by norm_num [TRANSCRIPT_LIMIT]⟩]
  simp [List.intercalate, transcriptParts]

/-- C1 counterexample: a single file named `a` whose extracted text is
exactly 32000 characters produces an output string of 32017 characters — the
`=== File: a ===` marker and the trailing newline are not counted against
the budget — so the returned string exceeds the 32000-character budget the
claim puts on it. -/
theorem transcript_content_over_budget (c : List Char) (hne : c ≠ [])
    (hlen : TRANSCRIPT_LIMIT ≤ c.length) :
    TRANSCRIPT_LIMIT < (get_all_transcript_content [⟨"a".data, c⟩]).length := by
  rw [transcript_content_singleton ⟨"a".data, c⟩ hne, length_filePart]
  have htake : (c.take TRANSCRIPT_LIMIT).length = TRANSCRIPT_LIMIT := by
    rw [List.length_take]
    omega
  have hname : ("a".data).length = 1 := rfl
  rw [htake, hname]
  omega

theorem C1_counterexample :
    TRANSCRIPT_LIMIT <
      (get_all_transcript_content [⟨"a".data, List.replicate 32000 'x'⟩]).length := by
  apply transcript_content_over_budget
  · intro hh
    have hlen := congrArg List.length hh
    simp only [List.length_replicate, List.length_nil] at hlen
    exact absurd hlen (by norm_num)
  · rw [List.length_replicate]
    norm_num [TRANSCRIPT_LIMIT]

/-- C2 (amended): for every window size `N ≥ 1`, `trim_conversation` returns a
suffix of the turn list of length `min L (2 * N)`, preserving relative order;
the default window size is 10.  (For `N = 0` the Python slice `[-0:]` returns
the whole list, so the claim's `min L 0 = 0` fails there.) -/
theorem C2_trim_window (m : List α) (N : Nat) (h : 1 ≤ N) :
    trim_conversation m N <:+ m ∧
    (trim_conversation m N).length = min m.length (2 * N) ∧
    MAX_CONVERSATION_EXCHANGES = 10 := by
  refine ⟨?_, ?_, rfl⟩
  · unfold trim_conversation
    split
    · exact List.suffix_rfl
    · exact pyTail_suffix _ _
  · by_cases hle : m.length ≤ N * 2
    · rw [trim_conversation_of_le hle]
      omega
    · unfold trim_conversation
      rw [if_neg hle, length_pyTail_of_lt (by omega) (by omega)]
      omega

/-- Witness for C2: 25 turns with window 10 trim to the 20-turn suffix. -/
theorem C2_trim_window_witness :
    trim_conversation (List.range 25) 10 <:+ List.range 25 ∧
    (trim_conversation (List.range 25) 10).length = min (List.range 25).length (2 * 10) ∧
    MAX_CONVERSATION_EXCHANGES = 10 :=
  C2_trim_window (List.range 25) 10 (by decide)

/-- C2 counterexample: with window size `N = 0` and three turns, the code
returns all three turns (Python `messages[-0:]` is the whole list), not a
suffix of length `min 3 (2 * 0) = 0` as the claim states for every `N`. -/
theorem C2_counterexample :
    (trim_conversation ([0, 1, 2] : List Nat) 0).length ≠
      min ([0, 1, 2] : List Nat).length (2 * 0) := by
  decide

/-- C9: `trim_conversation` is idempotent, for every turn list and every
window size (including the `N = 0` edge case). -/
theorem C9_trim_idempotent (m : List α) (N : Nat) :
    trim_conversation (trim_conversation m N) N = trim_conversation m N := by
  by_cases hle : m.length ≤ N * 2
  · rw [trim_conversation_of_le hle]
    exact trim_conversation_of_le hle
  · rcases Nat.eq_zero_or_pos N with hN | hN
    · subst hN
      have hm : trim_conversation m 0 = m := by
        unfold trim_conversation pyTail
        rw [if_neg hle, if_pos rfl]
      rw [hm]
      exact hm
    · have hlen : (trim_conversation m N).length = N * 2 := by
        unfold trim_conversation
        rw [if_neg hle, length_pyTail_of_lt (by omega) (by omega)]
      exact trim_conversation_of_le (le_of_eq hlen)

/-- `", ".join(model_names) or "none"` from the `no_model` message: Python's
`or` replaces an empty join with `"none"`. -/
def availableNames (names : List String) : String :=
  let joined := String.intercalate ", " names
  if joined = "" then "none" else joined

/-- The outcome of the `GET {OLLAMA_HOST}/api/tags` health request as
`check_ollama_status` observes it: a response with its status code and the
model names parsed from its JSON body, or one of the caught exceptions. -/
inductive TagsOutcome where
  | resp (statusCode : Nat) (modelNames : List String)
  | connError
  | timedOut (message : String)
  | exc (message : String)

/-- `OLLAMA_MODEL.split(":")[0]`: the part of the model name before the first
colon. -/
def baseModelOf (model : String) : String :=
  String.mk (model.data.takeWhile (fun c => c ≠ ':'))

/-- Python `s.startswith(p)`: `p`'s characters are a prefix of `s`'s. -/
def pyStartswith (s p : String) : Bool :=
  p.data.isPrefixOf s.data

/-- The match test in `check_ollama_status`'s loop:
`name == OLLAMA_MODEL or name.startswith(base_model)`. -/
def modelMatches (model name : String) : Bool :=
  name == model || pyStartswith name (baseModelOf model)

/-- `check_ollama_status` from app.py, as a function of the configured model
name and the observed request outcome; returns the `(status, detail)` pair. -/
def check_ollama_status (model : String) (out : TagsOutcome) : String × String :=
  match out with
  | .resp code names =>
    if code ≠ 200 then ("server_error", "Ollama server returned an error")
    else
      match names.find? (fun name => modelMatches model name) with
      | some name => ("ready", name)
      | none =>
        ("no_model",
         "Model '" ++ model ++ "' not found. Available: " ++ availableNames names)
  | .connError => ("offline", "Ollama server is not running")
  | .timedOut _ => ("timeout", "Ollama server timed out")
  | .exc e => ("error", e)

/-- C3: `check_ollama_status` classifies every observed outcome of the health
request: a 200 response containing a matching model name (exact configured
name, or starting with the name's part before the colon) gives `ready`
together with a matching name from the list; a 200 response with no matching
name gives `no_model`; a non-200 response gives `server_error`; a connection
error gives `offline`; a timeout gives `timeout`; any other exception gives
`error` with the exception's description. -/
theorem C3_probe_classification (model : String) (out : TagsOutcome) :
    (∀ code names, out = .resp code names →
      (code = 200 →
        (names.any (fun n => modelMatches model n) = true →
          (check_ollama_status model out).1 = "ready" ∧
          (check_ollama_status model out).2 ∈ names ∧
          modelMatches model (check_ollama_status model out).2 = true) ∧
        (names.all (fun n => !modelMatches model n) = true →
          (check_ollama_status model out).1 = "no_model")) ∧
      (code ≠ 200 → (check_ollama_status model out).1 = "server_error")) ∧
    (out = .connError →
      check_ollama_status model out = ("offline", "Ollama server is not running")) ∧
    (∀ m, out = .timedOut m → 
      check_ollama_status model out = ("timeout", "Ollama server timed out")) ∧
    (∀ e, out = .exc e → check_ollama_status model out = ("error", e)) := by
  refine ⟨?_, ?_, ?_, ?_⟩
  · intro code names hout
    subst hout
    constructor
    · intro h200
      subst h200
      constructor
      · intro hany
        rcases List.any_eq_true.mp hany with ⟨n, hn, hmatch⟩
        cases hfind : List.find? (fun name => modelMatches model name) names with
        | none =>
          exact absurd hmatch (by simpa using List.find?_eq_none.mp hfind n hn)
        | some m =>
          refine ⟨?_, ?_, ?_⟩
          · simp [check_ollama_status, hfind]
          · simp only [check_ollama_status, if_neg (by omega : ¬ (200 : Nat) ≠ 200), hfind]
            exact List.mem_of_find?_eq_some hfind
          · simp only [check_ollama_status, if_neg (by omega : ¬ (200 : Nat) ≠ 200), hfind]
            exact List.find?_some hfind
      · intro hall
        have hnone : List.find? (fun name => modelMatches model name) names = none := by
          rw [List.find?_eq_none]
          intro n hn
          simpa using List.all_eq_true.mp hall n hn
        simp [check_ollama_status, hnone]
    · intro hne
      simp [check_ollama_status, if_pos hne]
  · intro hout; subst hout; rfl
  · intro m hout; subst hout; rfl
  · intro e hout; subst hout; rfl

/-- Witness for C3: the default model `llama3.2:3b` against a 200 response
listing `llama3.2:latest` (a base-name match) is classified `ready` with the
matched name. -/
theorem C3_witness :
    (check_ollama_status "llama3.2:3b" (.resp 200 ["llama3.2:latest"])).1 = "ready" ∧
    (check_ollama_status "llama3.2:3b" (.resp 200 ["llama3.2:latest"])).2 ∈
      ["llama3.2:latest"] ∧
    modelMatches "llama3.2:3b"
      (check_ollama_status "llama3.2:3b" (.resp 200 ["llama3.2:latest"])).2 = true :=
  (((C3_probe_classification "llama3.2:3b"
      (.resp 200 ["llama3.2:latest"])).1 200 ["llama3.2:latest"] rfl).1 rfl).1
    (by decide)

/-- The environment `ensure_ollama_running` observes: the status component of
`check_ollama_status()`, the wall clock `time.time()`, and the success flag
`start_ollama_service()` would report if invoked. -/
structure EnsureEnv where
  probeStatus : String
  now : Int
  startOk : Bool

/-- The observable result of `ensure_ollama_running`: the returned boolean,
the session marker `_ollama_start_failed` after the call (`none` = absent),
and whether `start_ollama_service` was invoked. -/
structure EnsureResult where
  ok : Bool
  marker : Option Int
  invokedStart : Bool
deriving DecidableEq

/-- `ensure_ollama_running` from app.py, over the pre-call session marker and
the observed environment.  `st.session_state.get("_ollama_start_failed", 0)`
reads the marker with default `0`. -/
def ensure_ollama_running (marker : Option Int) (env : EnsureEnv) : EnsureResult :=
  if env.probeStatus = "ready" then ⟨true, none, false⟩
  else
    let last_fail := marker.getD 0
    if env.now - last_fail < 30 then ⟨false, marker, false⟩
    else if env.startOk then ⟨true, marker, true⟩
    else ⟨false, some env.now, true⟩

/-- C4 (amended): when the probe is `ready` the marker is cleared and the
call returns true without starting; a recorded failure within the last 30
seconds suppresses the start and returns false; when the last failure (or
time 0, if no failure is recorded — the marker's absence reads as `0`) is at
least 30 seconds old, `start` is invoked, its outcome is returned, and a
fresh failure records the current time.  In particular, with no recorded
failure and a clock below 30 the start is also suppressed. -/
theorem C4_ensure_running (marker : Option Int) (env : EnsureEnv) :
    (env.probeStatus = "ready" →
      ensure_ollama_running marker env = ⟨true, none, false⟩) ∧
    (env.probeStatus ≠ "ready" →
      (∀ t, marker = some t → env.now - t < 30 →
        ensure_ollama_running marker env = ⟨false, marker, false⟩) ∧
      (30 ≤ env.now - marker.getD 0 →
        (ensure_ollama_running marker env).invokedStart = true ∧
        (ensure_ollama_running marker env).ok = env.startOk ∧
        (env.startOk = true → (ensure_ollama_running marker env).marker = marker) ∧
        (env.startOk = false →
          (ensure_ollama_running marker env).marker = some env.now)) ∧
      (marker = none → env.now < 30 →
        ensure_ollama_running marker env = ⟨false, none, false⟩)) := by
  constructor
  · intro hready
    simp [ensure_ollama_running, hready]
  · intro hnot
    refine ⟨?_, ?_, ?_⟩
    · intro t hmark hlt
      subst hmark
      simp only [ensure_ollama_running, if_neg hnot, Option.getD_some]
      rw [if_pos hlt]
    · intro hge
      simp only [ensure_ollama_running, if_neg hnot]
      rw [if_neg (by omega)]
      rcases hok : env.startOk with _ | _
      · simp
      · simp
    · intro hmark hlt
      subst hmark
      simp only [ensure_ollama_running, if_neg hnot, Option.getD_none]
      rw [if_pos (by omega)]

/-- Witness for C4: a failure recorded at time 100 and a call at time 110
(within the 30-second window) returns false, keeps the marker, and does not
invoke `start`. -/
theorem C4_witness :
    ensure_ollama_running (some 100) ⟨"offline", 110, true⟩ =
      ⟨false, some 100, false⟩ :=
  ((C4_ensure_running (some 100) ⟨"offline", 110, true⟩).2
      (by decide)).1 100 rfl (by decide)

/-- C4 counterexample: with no recorded failure, a clock of 5 seconds and a
`start` that would succeed, the code returns false *without* invoking
`start` — the absent marker defaults to `0`, so `5 - 0 < 30` triggers the
backoff although no start attempt ever failed, contradicting the claim that
in this situation `start` is called and its outcome returned. -/
theorem C4_counterexample :
    ¬ ((ensure_ollama_running none ⟨"offline", 5, true⟩).invokedStart = true ∧
       (ensure_ollama_running none ⟨"offline", 5, true⟩).ok = true) := by
  decide

/-- How the `subprocess.Popen(["ollama", "serve"], ...)` launch ends:
normally, with the caught `FileNotFoundError`, or with another exception. -/
inductive LaunchOutcome where
  | launched
  | fileNotFound
  | otherExc (message : String)
deriving DecidableEq

/-- The environment `start_ollama_service` observes: the status component of
the initial `check_ollama_status()`, the launch outcome, the health request
each poll iteration sees, and what `get_ollama_pids()` returns at the moment
a poll succeeds. -/
structure StartEnv where
  probeStatus : String
  launch : LaunchOutcome
  poll : Nat → TagsOutcome
  pidsAt : Nat → List Int

/-- The observable result of `start_ollama_service`: the `(ok, message)`
pair and whether a process launch was attempted. -/
structure StartResult where
  ok : Bool
  message : String
  launchAttempted : Bool
deriving DecidableEq

/-- `pids[0] if pids else "?"` interpolated into the success message. -/
def pidStr : List Int → String
  | [] => "?"
  | p :: _ => toString p

/-- The `for _ in range(15)` polling loop of `start_ollama_service`, at
iteration `i` with `fuel` iterations remaining (`i + fuel = 15` at entry):
a 200 response returns success, a `requests.ConnectionError` is ignored and
the loop continues (as does a non-200 response), and any other exception
escapes to the outer `except Exception`, which returns failure. -/
def startPoll (env : StartEnv) : Nat → Nat → Bool × String
  | _, 0 => (false, "Ollama process started but health check failed after 15 s")
  | i, fuel + 1 =>
    match env.poll i with
    | .resp code _ =>
      if code = 200 then
        (true, "Ollama started successfully (PID " ++ pidStr (env.pidsAt i) ++ ")")
      else startPoll env (i + 1) fuel
    | .connError => startPoll env (i + 1) fuel
    | .timedOut e => (false, "Failed to start: " ++ e)
    | .exc e => (false, "Failed to start: " ++ e)

/-- `start_ollama_service` from app.py. -/
def start_ollama_service (env : StartEnv) : StartResult :=
  if env.probeStatus = "ready" then ⟨true, "Ollama is already running", false⟩
  else
    match env.launch with
    | .fileNotFound => ⟨false, "ollama binary not found — is Ollama installed?", true⟩
    | .otherExc e => ⟨false, "Failed to start: " ++ e, true⟩
    | .launched =>
      ⟨(startPoll env 0 15).1, (startPoll env 0 15).2, true⟩

/-- A poll iteration that makes the loop continue: a connection error (caught
and ignored) or a non-200 response. -/
def pollMiss (env : StartEnv) (i : Nat) : Prop :=
  env.poll i = .connError ∨ ∃ c names, c ≠ 200 ∧ env.poll i = .resp c names

theorem startPoll_miss_step (env : StartEnv) (k fuel : Nat)
    (hmk : pollMiss env k) :
    startPoll env k (fuel + 1) = startPoll env (k + 1) fuel := by
  rcases hmk with h | ⟨c, names, hc, h⟩
  · simp only [startPoll, h]
  · simp only [startPoll, h]
    rw [if_neg hc]

theorem startPoll_success (env : StartEnv) :
    ∀ (fuel k i : Nat), k + fuel = 15 → k ≤ i → i < 15 →
      (∀ j, k ≤ j → j < i → pollMiss env j) →
      (∃ names, env.poll i = .resp 200 names) →
      startPoll env k fuel =
        (true, "Ollama started successfully (PID " ++ pidStr (env.pidsAt i) ++ ")") := by
  intro fuel
  induction fuel with
  | zero => intro k i hkf hki hi _ _; omega
  | succ n ih =>
    intro k i hkf hki hi hmiss hhit
    by_cases hk : k = i
    · subst hk
      rcases hhit with ⟨names, hhit⟩
      simp [startPoll, hhit]
    · rw [startPoll_miss_step env k n (hmiss k (Nat.le_refl _) (by omega))]
      exact ih (k + 1) i (by omega) (by omega) hi
        (fun j hj1 hj2 => hmiss j (by omega) hj2) hhit

theorem startPoll_all_miss (env : StartEnv) :
    ∀ (fuel k : Nat), k + fuel = 15 →
      (∀ j, k ≤ j → j < 15 → pollMiss env j) →
      startPoll env k fuel =
        (false, "Ollama process started but health check failed after 15 s") := by
  intro fuel
  induction fuel with
  | zero => intro k _ _; rfl
  | succ n ih =>
    intro k hkf hmiss
    rw [startPoll_miss_step env k n (hmiss k (Nat.le_refl _) (by omega))]
    exact ih (k + 1) (by omega) (fun j h1 h2 => hmiss j (by omega) h2)

/-- C5 (amended): `start_ollama_service` returns success without launching
when the initial probe already reports `ready`; a missing binary is reported
as failure without retry; otherwise it launches the process and polls the
health endpoint once per second for up to 15 seconds, returning success with
a message carrying a discovered process id on the first HTTP 200 response
(server reachable — regardless of whether the model is present, so the poll
can succeed while `check_ollama_status` would still report `no_model` rather
than `ready`), and failure after the 15-second timeout when every poll
misses. -/
theorem C5_start_service (env : StartEnv) :
    (env.probeStatus = "ready" →
      start_ollama_service env = ⟨true, "Ollama is already running", false⟩) ∧
    (env.probeStatus ≠ "ready" → env.launch = .fileNotFound →
      start_ollama_service env =
        ⟨false, "ollama binary not found — is Ollama installed?", true⟩) ∧
    (env.probeStatus ≠ "ready" → env.launch = .launched →
      (∀ i, i < 15 → (∃ names, env.poll i = .resp 200 names) →
        (∀ j, j < i → pollMiss env j) →
        start_ollama_service env =
          ⟨true, "Ollama started successfully (PID " ++ pidStr (env.pidsAt i) ++ ")",
            true⟩) ∧
      ((∀ i, i < 15 → pollMiss env i) →
        start_ollama_service env =
          ⟨false, "Ollama process started but health check failed after 15 s",
            true⟩)) := by
  refine ⟨?_, ?_, ?_⟩
  · intro hready
    simp [start_ollama_service, hready]
  · intro hnot hfnf
    simp [start_ollama_service, hnot, hfnf]
  · intro hnot hlaunch
    constructor
    · intro i hi hhit hmiss
      have h := startPoll_success env 15 0 i (by omega) (Nat.zero_le _) hi
        (fun j _ hj2 => hmiss j hj2) hhit
      simp [start_ollama_service, hnot, hlaunch, h]
    · intro hmiss
      have h := startPoll_all_miss env 15 0 (by omega)
        (fun j _ hj2 => hmiss j hj2)
      simp [start_ollama_service, hnot, hlaunch, h]

/-- Witness for C5: with the probe already `ready`, start is a no-op
success and no launch is attempted. -/
theorem C5_witness :
    start_ollama_service ⟨"ready", .launched, fun _ => .connError, fun _ => []⟩ =
      ⟨true, "Ollama is already running", false⟩ :=
  (C5_start_service ⟨"ready", .launched, fun _ => .connError, fun _ => []⟩).1 rfl

/-- C5 counterexample: the polling loop checks only `status_code == 200`,
not `check_ollama_status() == "ready"`.  With every poll answering 200 with
an empty model list, the code reports success although the probe would
classify that same outcome as `no_model`, never `ready` — contradicting the
claim that success comes only on the first `ready`. -/
theorem C5_counterexample :
    (start_ollama_service
        ⟨"offline", .launched, fun _ => .resp 200 [], fun _ => [7]⟩).ok = true ∧
    (check_ollama_status "llama3.2:3b" (.resp 200 [])).1 ≠ "ready" := by
  constructor
  · rfl
  · decide

/-- The two signals `stop_ollama_service` sends. -/
inductive Sig where
  | sigterm
  | sigkill
deriving DecidableEq

/-- Outcome of one `os.kill(pid, sig)` call: normal return, the
`ProcessLookupError` the code catches and ignores, or another exception
(escaping to the outer `except Exception`). -/
inductive KillOutcome where
  | ok
  | noSuchProcess
  | err (message : String)

/-- The environment `stop_ollama_service` observes: the successive
`get_ollama_pids()` snapshots and the outcome of each `os.kill` call. -/
structure StopEnv where
  pids0 : List Int
  termOutcome : Int → KillOutcome
  pollPids : Nat → List Int
  killPhasePids : List Int
  killOutcome : Int → KillOutcome
  finalPids : List Int

/-- An `os.kill` loop over `pids`: returns the `(pid, signal)` calls made
and, if an uncaught exception occurred, its message (the loop stops there). -/
def sendSignals (outcome : Int → KillOutcome) (s : Sig) :
    List Int → List (Int × Sig) × Option String
  | [] => ([], none)
  | p :: ps =>
    match outcome p with
    | .err m => ([(p, s)], some m)
    | _ => ((p, s) :: (sendSignals outcome s ps).1, (sendSignals outcome s ps).2)

/-- The graceful-wait loop: up to 10 polls at 0.5 s intervals, at poll `i`
with `fuel` polls remaining; true iff some poll finds no remaining process,
causing the early `return True, "Ollama stopped gracefully"`. -/
def gracefulWait (pollPids : Nat → List Int) : Nat → Nat → Bool
  | _, 0 => false
  | i, fuel + 1 =>
    if pollPids i = [] then true else gracefulWait pollPids (i + 1) fuel

/-- `stop_ollama_service` from app.py: the `(ok, message)` pair, paired with
the trace of signals sent. -/
def stop_ollama_service (env : StopEnv) : Bool × String × List (Int × Sig) :=
  if env.pids0 = [] then (true, "Ollama is not running", [])
  else
    match sendSignals env.termOutcome .sigterm env.pids0 with
    | (trace, some e) => (false, "Error stopping Ollama: " ++ e, trace)
    | (trace, none) =>
      if gracefulWait env.pollPids 0 10 then
        (true, "Ollama stopped gracefully", trace)
      else
        match sendSignals env.killOutcome .sigkill env.killPhasePids with
        | (trace2, some e) => (false, "Error stopping Ollama: " ++ e, trace ++ trace2)
        | (trace2, none) =>
          if env.finalPids = [] then
            (true, "Ollama force-stopped (SIGKILL)", trace ++ trace2)
          else (false, "Could not stop all Ollama processes", trace ++ trace2)

theorem sendSignals_no_err (outcome : Int → KillOutcome) (s : Sig)
    (ps : List Int) (h : ∀ p ∈ ps, ∀ m, outcome p ≠ .err m) :
    sendSignals outcome s ps = (ps.map (fun p => (p, s)), none) := by
  induction ps with
  | nil => rfl
  | cons p ps ih =>
    have htail := ih (fun q hq m => h q (List.mem_cons_of_mem p hq) m)
    cases hout : outcome p with
    | err m => exact absurd hout (h p (List.mem_cons_self p ps) m)
    | ok => simp [sendSignals, hout, htail]
    | noSuchProcess => simp [sendSignals, hout, htail]

/-- C6: `stop_ollama_service` (in environments where no `os.kill` call
raises an uncaught exception) returns success without sending any signal
when no matching process id is found; otherwise it sends SIGTERM to every
initially matching pid, returns success if one of the ten half-second polls
finds no process left, and otherwise sends SIGKILL to every pid still
matching at that point and reports success exactly when the final pid lookup
finds none. -/
theorem C6_stop_service (env : StopEnv)
    (hterm : ∀ p m, env.termOutcome p ≠ .err m)
    (hkill : ∀ p m, env.killOutcome p ≠ .err m) :
    (env.pids0 = [] →
      stop_ollama_service env = (true, "Ollama is not running", [])) ∧
    (env.pids0 ≠ [] →
      (∀ p ∈ env.pids0, (p, Sig.sigterm) ∈ (stop_ollama_service env).2.2) ∧
      (gracefulWait env.pollPids 0 10 = true →
        stop_ollama_service env =
          (true, "Ollama stopped gracefully",
            env.pids0.map (fun p => (p, Sig.sigterm)))) ∧
      (gracefulWait env.pollPids 0 10 = false →
        (∀ p ∈ env.killPhasePids, (p, Sig.sigkill) ∈ (stop_ollama_service env).2.2) ∧
        ((stop_ollama_service env).1 = true ↔ env.finalPids = []))) := by
  have hterm' := sendSignals_no_err env.termOutcome .sigterm env.pids0
    (fun p _ m => hterm p m)
  have hkill' := sendSignals_no_err env.killOutcome .sigkill env.killPhasePids
    (fun p _ m => hkill p m)
  constructor
  · intro h0
    simp [stop_ollama_service, h0]
  · intro h0
    have hstop : stop_ollama_service env =
        (if gracefulWait env.pollPids 0 10 then
          (true, "Ollama stopped gracefully",
            env.pids0.map (fun p => (p, Sig.sigterm)))
        else
          if env.finalPids = [] then
            (true, "Ollama force-stopped (SIGKILL)",
              env.pids0.map (fun p => (p, Sig.sigterm)) ++
                env.killPhasePids.map (fun p => (p, Sig.sigkill)))
          else
            (false, "Could not stop all Ollama processes",
              env.pids0.map (fun p => (p, Sig.sigterm)) ++
                env.killPhasePids.map (fun p => (p, Sig.sigkill)))) := by
      rw [stop_ollama_service, if_neg h0, hterm', hkill']
    refine ⟨?_, ?_, ?_⟩
    · intro p hp
      rw [hstop]
      split
      · exact List.mem_map_of_mem _ hp
      · split
        · exact List.mem_append_left _ (List.mem_map_of_mem _ hp)
        · exact List.mem_append_left _ (List.mem_map_of_mem _ hp)
    · intro hg
      rw [hstop, if_pos hg]
    · intro hg
      rw [hstop, if_neg (by simp [hg])]
      constructor
      · intro p hp
        split
        · exact List.mem_append_right _ (List.mem_map_of_mem _ hp)
        · exact List.mem_append_right _ (List.mem_map_of_mem _ hp)
      · constructor
        · intro htrue
          by_contra hne
          rw [if_neg hne] at htrue
          simp at htrue
        · intro hfin
          rw [if_pos hfin]

/-- Witness for C6: one process (pid 5) answers SIGTERM and the first poll
already finds none left: graceful success with exactly one signal sent. -/
theorem C6_witness :
    stop_ollama_service
        ⟨[5], fun _ => .ok, fun _ => [], [], fun _ => .ok, []⟩ =
      (true, "Ollama stopped gracefully", [((5 : Int), Sig.sigterm)]) :=
  (((C6_stop_service ⟨[5], fun _ => .ok, fun _ => [], [], fun _ => .ok, []⟩
      (fun _ _ => by simp) (fun _ _ => by simp)).2 (by simp)).2.1 rfl)

/-- Characters Python's `str.strip()` removes. -/
def isPySpace (c : Char) : Bool :=
  c = ' ' || c = '\t' || c = '\n' || c = '\r' || c = '\x0b' || c = '\x0c'

/-- Python `s.strip()` over the character sequence. -/
def pyStrip (l : List Char) : List Char :=
  ((l.dropWhile isPySpace).reverse.dropWhile isPySpace).reverse

/-- Python `s.split("\n")`. -/
def pySplitLines (l : List Char) : List (List Char) :=
  l.splitOn '\n'

def digitsToNat? (l : List Char) : Option Nat :=
  if l ≠ [] ∧ l.all (fun c => c.isDigit) then
    some (l.foldl (fun a c => a * 10 + (c.toNat - '0'.toNat)) 0)
  else none

/-- Python `int(p)` on the strings `pgrep` emits: strips whitespace, accepts
an optional sign and a non-empty digit string; `none` models the raised
`ValueError`. -/
def pyInt? (s : List Char) : Option Int :=
  match pyStrip s with
  | '-' :: ds => (digitsToNat? ds).map (fun n => -(n : Int))
  | '+' :: ds => (digitsToNat? ds).map (fun n => (n : Int))
  | ds => (digitsToNat? ds).map (fun n => (n : Int))

/-- The outcome of `subprocess.run(["pgrep", "-f", "ollama serve"], ...)`:
either the process ran (return code and stdout), or an exception was raised
(`FileNotFoundError` for a missing `pgrep`, `TimeoutExpired`, ...), all of
which land in `get_ollama_pids`'s blanket `except Exception`. -/
inductive PgrepOutcome where
  | ran (returncode : Int) (stdout : List Char)
  | exc

/-- `get_ollama_pids` from app.py: empty on any exception, empty on a
non-zero return code, else `[int(p) for p in stdout.strip().split("\n") if
p.strip()]` — where a failing `int(p)` also lands in the blanket `except`
and yields the empty list. -/
def get_ollama_pids (o : PgrepOutcome) : List Int :=
  match o with
  | .exc => []
  | .ran rc out =>
    if rc ≠ 0 then []
    else
      match ((pySplitLines (pyStrip out)).filter
          (fun p => pyStrip p ≠ [])).mapM pyInt? with
      | some ps => ps
      | none => []

/-- C10: whenever the pid lookup itself fails — `pgrep` missing or timing
out (an exception) or exiting non-zero — `get_ollama_pids` returns the empty
list, so `stop_ollama_service` takes its no-op branch and reports success
with "Ollama is not running", even though a server process may still be
running. -/
theorem C10_pgrep_failure (o : PgrepOutcome) (env : StopEnv)
    (hfail : o = .exc ∨ ∃ rc out, o = .ran rc out ∧ rc ≠ 0)
    (henv : env.pids0 = get_ollama_pids o) :
    get_ollama_pids o = [] ∧
    stop_ollama_service env = (true, "Ollama is not running", []) := by
  have hnil : get_ollama_pids o = [] := by
    rcases hfail with h | ⟨rc, out, h, hrc⟩
    · subst h; rfl
    · subst h
      simp [get_ollama_pids, hrc]
  exact ⟨hnil, by rw [stop_ollama_service, if_pos (henv.trans hnil)]⟩

/-- Witness for C10: `pgrep` exits with return code 1 (no match / error):
the pid list is empty and stop is a no-op success. -/
theorem C10_witness :
    get_ollama_pids (.ran 1 []) = [] ∧
    stop_ollama_service ⟨[], fun _ => .ok, fun _ => [], [], fun _ => .ok, []⟩ =
      (true, "Ollama is not running", []) :=
  C10_pgrep_failure (.ran 1 [])
    ⟨[], fun _ => .ok, fun _ => [], [], fun _ => .ok, []⟩
    (Or.inr ⟨1, [], rfl, by decide⟩) rfl

/-- The environment `restart_ollama_service` observes: the stop phase's
environment, then (after the 2 s pause) the start phase's. -/
structure RestartEnv where
  stopEnv : StopEnv
  startEnv : StartEnv

/-- `restart_ollama_service` from app.py: stop, abort on stop failure, else
wait 2 s and start. -/
def restart_ollama_service (env : RestartEnv) : Bool × String :=
  if (stop_ollama_service env.stopEnv).1 then
    ((start_ollama_service env.startEnv).ok,
      (start_ollama_service env.startEnv).message)
  else
    (false, "Restart aborted — stop failed: " ++ (stop_ollama_service env.stopEnv).2.1)

/-- C8: the supervisor operations are total functions of the observed
environment — the embedding returns a result for every environment, so no
exception escapes to the caller — and every modeled filesystem, process or
network error outcome is converted into a false result carrying a message:
a missing binary, any other launch exception, an exception inside the
polling loop, an uncaught `os.kill` exception, a failing stop inside
restart, and a failing start inside ensure each yield `(false, message)`
(respectively `false` for `ensure_ollama_running`). -/
theorem C8_supervisor_errors :
    (∀ env : StartEnv, env.probeStatus ≠ "ready" → env.launch = .fileNotFound →
      (start_ollama_service env).ok = false ∧
      (start_ollama_service env).message =
        "ollama binary not found — is Ollama installed?") ∧
    (∀ (env : StartEnv) (e : String), env.probeStatus ≠ "ready" →
      env.launch = .otherExc e →
      (start_ollama_service env).ok = false ∧
      (start_ollama_service env).message = "Failed to start: " ++ e) ∧
    (∀ (env : StartEnv) (e : String), env.probeStatus ≠ "ready" →
      env.launch = .launched →
      (env.poll 0 = .exc e ∨ env.poll 0 = .timedOut e) →
      (start_ollama_service env).ok = false ∧
      (start_ollama_service env).message = "Failed to start: " ++ e) ∧
    (∀ (env : StopEnv) (p : Int) (ps : List Int) (m : String),
      env.pids0 = p :: ps → env.termOutcome p = .err m →
      (stop_ollama_service env).1 = false ∧
      (stop_ollama_service env).2.1 = "Error stopping Ollama: " ++ m) ∧
    (∀ env : RestartEnv, (stop_ollama_service env.stopEnv).1 = false →
      (restart_ollama_service env).1 = false ∧
      (restart_ollama_service env).2 =
        "Restart aborted — stop failed: " ++ (stop_ollama_service env.stopEnv).2.1) ∧
    (∀ (marker : Option Int) (env : EnsureEnv), env.probeStatus ≠ "ready" →
      env.startOk = false → 30 ≤ env.now - marker.getD 0 →
      (ensure_ollama_running marker env).ok = false) := by
  refine ⟨?_, ?_, ?_, ?_, ?_, ?_⟩
  · intro env hnot hfnf
    simp [start_ollama_service, hnot, hfnf]
  · intro env e hnot hexc
    simp [start_ollama_service, hnot, hexc]
  · intro env e hnot hlaunch hpoll
    have h15 : (15 : Nat) = 14 + 1 := rfl
    have hp : startPoll env 0 15 = (false, "Failed to start: " ++ e) := by
      rw [h15]
      rcases hpoll with h | h
      · simp [startPoll, h]
      · simp [startPoll, h]
    simp [start_ollama_service, hnot, hlaunch, hp]
  · intro env p ps m h0 herr
    have hsend : sendSignals env.termOutcome .sigterm (p :: ps) =
        ([(p, .sigterm)], some m) := by
      simp [sendSignals, herr]
    rw [stop_ollama_service, if_neg (by simp [h0]), h0, hsend]
    exact ⟨rfl, rfl⟩
  · intro env hstop
    rw [restart_ollama_service, if_neg (by simp [hstop])]
    exact ⟨rfl, rfl⟩
  · intro marker env hnot hfail hge
    simp only [ensure_ollama_running, if_neg hnot]
    rw [if_neg (by omega)]
    simp [hfail]

/-- Witness for C8: a missing `ollama` binary makes start report failure
with the fixed message, raising nothing. -/
theorem C8_witness :
    (start_ollama_service
        ⟨"offline", .fileNotFound, fun _ => .connError, fun _ => []⟩).ok = false ∧
    (start_ollama_service
        ⟨"offline", .fileNotFound, fun _ => .connError, fun _ => []⟩).message =
      "ollama binary not found — is Ollama installed?" :=
  C8_supervisor_errors.1
    ⟨"offline", .fileNotFound, fun _ => .connError, fun _ => []⟩ (by decide) rfl

/-- The exceptions `stream_ollama_response` catches. -/
inductive StreamErr where
  | connError
  | timedOut
  | otherExc (message : String)
deriving DecidableEq

/-- The error fragment each caught exception yields. -/
def streamErrText : StreamErr → String
  | .connError =>
    "\n\n**Error:** Cannot connect to the AI model server. The model may still be loading — please try again in a moment."
  | .timedOut =>
    "\n\n**Error:** The model took too long to respond. Please try a shorter question."
  | .otherExc e => "\n\n**Error:** " ++ e

/-- What the chat request delivers: either it fails before any line is
produced (`failure`: connection refusal, timeout, `raise_for_status`, or
another exception), or the line iteration yields a list of parsed chunks —
each non-empty line's `message.content` and `done` flag — possibly ending in
an exception raised mid-iteration (`after`). -/
inductive FetchResult where
  | failure (e : StreamErr)
  | stream (chunks : List (String × Bool)) (after : Option StreamErr)

/-- The `for line in resp.iter_lines()` loop: yields each non-empty content
fragment and breaks after a chunk whose `done` flag is set.  Returns the
yielded fragments and whether the loop broke at a `done` marker. -/
def consumeLines : List (String × Bool) → List String × Bool
  | [] => ([], false)
  | (c, d) :: rest =>
    if d then ((if c = "" then [] else [c]), true)
    else ((if c = "" then [] else [c]) ++ (consumeLines rest).1,
      (consumeLines rest).2)

/-- `stream_ollama_response` from app.py: the list of yielded fragments.  An
exception recorded in `after` is only reached when the loop did not already
break at a `done` marker; the surrounding `try` then yields its error
fragment after the fragments already produced. -/
def stream_ollama_response (r : FetchResult) : List String :=
  match r with
  | .failure e => [streamErrText e]
  | .stream chunks after =>
    match consumeLines chunks, after with
    | (ys, true), _ => ys
    | (ys, false), some e => ys ++ [streamErrText e]
    | (ys, false), none => ys

/-- C7 (amended): every failure becomes yielded text, never an exception.  A
failure before any chunk yields exactly one fragment: the fixed
"cannot connect" text on connection refusal, the fixed "shorter question"
text on timeout, and the exception's description for any other exception —
the description is the sole output only in that before-any-chunk case; an
exception raised mid-stream instead appends its fragment after the chunks
already yielded. -/
theorem C7_stream_errors (r : FetchResult) :
    (r = .failure .connError → stream_ollama_response r =
      ["\n\n**Error:** Cannot connect to the AI model server. The model may still be loading — please try again in a moment."]) ∧
    (r = .failure .timedOut → stream_ollama_response r =
      ["\n\n**Error:** The model took too long to respond. Please try a shorter question."]) ∧
    (∀ m, r = .failure (.otherExc m) →
      stream_ollama_response r = ["\n\n**Error:** " ++ m]) ∧
    (∀ chunks aft, r = .stream chunks aft →
      ∀ e, aft = some e → (consumeLines chunks).2 = false →
        stream_ollama_response r = (consumeLines chunks).1 ++ [streamErrText e]) := by
  refine ⟨?_, ?_, ?_, ?_⟩
  · intro h; subst h; rfl
  · intro h; subst h; rfl
  · intro m h; subst h; rfl
  · intro chunks aft hr e haft hnb
    subst hr; subst haft
    simp only [stream_ollama_response]
    rcases hc : consumeLines chunks with ⟨ys, b⟩
    rw [hc] at hnb
    simp only at hnb
    subst hnb
    rfl

/-- Witness for C7: connection refusal before any chunk yields exactly the
fixed "cannot connect" fragment. -/
theorem C7_witness :
    stream_ollama_response (.failure .connError) =
      ["\n\n**Error:** Cannot connect to the AI model server. The model may still be loading — please try again in a moment."] :=
  (C7_stream_errors (.failure .connError)).1 rfl

/-- C7 counterexample: an exception raised after a chunk was already
yielded ("hello", then the iteration fails with "boom") produces the chunk
followed by the error fragment — the exception's description is not the
sole output, contradicting the claim's final clause. -/
theorem C7_counterexample :
    stream_ollama_response (.stream [("hello", false)] (some (.otherExc "boom"))) =
      ["hello", "\n\n**Error:** boom"] ∧
    (["hello", "\n\n**Error:** boom"] : List String) ≠ ["\n\n**Error:** boom"] := by
  constructor
  · rfl
  · decide

end AiTutor
